import Mathlib

/-!
Verification development for the consolidated customer-profile cache service
(`trabalho-integracao/api/app.py`).

The embedding models the application's state as the contents of the four
stores.  The three source stores (PostgreSQL, MongoDB, Neo4j) are reached
only through the narrow per-customer queries the code issues, so they are
modelled as the results of those queries: the `clientes` table rows (in
primary-key order, the order `ORDER BY id` returns), and one function per
adapter query keyed by customer id.  Redis is modelled as an association
list from string keys to stored values, plus a reachability flag; a stored
value is either the JSON encoding of a consolidated-record object, a
non-empty string that is not valid JSON, or the empty string (which Python
treats as falsy in `if cached:` / `if not raw:`).

JSON objects are modelled at the shape the code manipulates: association
lists from string keys to field values (`Dict`), where a field value is one
of the value shapes the code actually stores (a customer row, a list of
purchases, a list of strings, a list of friends, a list of referrals, a
string tag, an integer, or Python's `None`).  With values already at JSON
level, `jsonable_encoder` is the identity and `json.dumps`/`json.loads`
round-trip by construction, which is exactly the round-trip contract the
service relies on.

Handlers are state transformers `State → Except Err α × State`: an
uncaught Python exception is an `Err` result, and the state component is
the store contents at the moment the exception escapes.
-/

namespace TrabalhoBD2

/-- A row of the `clientes` table in PostgreSQL. -/
structure Cliente where
  id : Nat
  nome : String
deriving DecidableEq, Repr

/-- A row of the purchases join query (`compras` joined with `produtos`). -/
structure Compra where
  id : Nat
  produto : String
  tipo : String
  valor : Int
  data : String
deriving DecidableEq, Repr

/-- One record of the Neo4j friends query (`AMIGO_DE` one-hop). -/
structure Amigo where
  id_cliente : Nat
  nome : String
deriving DecidableEq, Repr

/-- One record of the Neo4j referrals query (`INDICOU` one-hop, carries a product). -/
structure Indicacao where
  id_cliente : Nat
  nome : String
  produto : String
deriving DecidableEq, Repr

/-- The MongoDB interest document, minus `_id`.  Each field is optional
because `dict.get` with a default is used on it: a document may exist and
still lack either key. -/
structure DocInteresses where
  interesses : Option (List String)
  tags_comportamento : Option (List String)
deriving DecidableEq, Repr

/-- The three source stores, modelled as the results of the narrow
per-customer queries the code issues (the raw query execution is an
external collaborator).  `clientes` holds the table rows in id order. -/
structure Sources where
  clientes : List Cliente
  compras : Nat → List Compra
  doc_interesses : Nat → Option DocInteresses
  amigos : Nat → List Amigo
  indicacoes : Nat → List Indicacao

/-- A JSON field value, restricted to the shapes the service stores and
returns. `null` is Python's `None` (produced by `dict.get` with no default). -/
inductive Field where
  | cli (c : Cliente)
  | compras (l : List Compra)
  | strs (l : List String)
  | amigos (l : List Amigo)
  | inds (l : List Indicacao)
  | str (s : String)
  | nat (n : Nat)
  | null
deriving DecidableEq, Repr

/-- A JSON object / Python dict: keys in insertion order. -/
abbrev Dict := List (String × Field)

/-- A string value stored in Redis: either the JSON encoding of an object,
a non-empty string that fails to decode, or the empty string (falsy). -/
inductive RVal where
  | enc (o : Dict)
  | badJson
  | emptyStr
deriving DecidableEq, Repr

/-- Application state: source stores, Redis contents, Redis reachability. -/
structure State where
  src : Sources
  redis : List (String × RVal)
  redis_up : Bool

/-- An escaped Python exception: an `HTTPException`, a `json` decode error,
or a Redis connection error. -/
inductive Err where
  | http (status : Nat) (detail : String)
  | jsonDecode
  | cacheUnavailable
deriving DecidableEq, Repr

/-- Lookup in a string-keyed association list (first binding wins). -/
def alookup {β : Type} : List (String × β) → String → Option β
  | [], _ => none
  | (k', v) :: d, k => if k' == k then some v else alookup d k

/-- Store in a string-keyed association list: replace in place if the key
exists, else append at the end (Python dict / Redis insertion order). -/
def astore {β : Type} : List (String × β) → String → β → List (String × β)
  | [], k, v => [(k, v)]
  | (k', v') :: d, k, v =>
    if k' == k then (k, v) :: d else (k', v') :: astore d k v

/-- Python dict lookup `d[k]` / `d.get(k)` as an option. -/
def dget (d : Dict) (k : String) : Option Field := alookup d k

/-- Python dict assignment `d[k] = v`. -/
def dictSet (d : Dict) (k : String) (v : Field) : Dict := astore d k v

/-- Redis GET on raw contents (no reachability check). -/
def rget (r : List (String × RVal)) (k : String) : Option RVal := alookup r k

/-- Redis SET on raw contents: overwrite or append. -/
def rset (r : List (String × RVal)) (k : String) (v : RVal) : List (String × RVal) :=
  astore r k v

/-- Python truthiness of `redis_client.get(...)`: `None` and the empty
string are falsy, every other string is truthy. -/
def truthyVal : Option RVal → Option RVal
  | some RVal.emptyStr => none
  | none => none
  | some v => some v

/-- `json.loads` on a stored string. -/
def json_loads : RVal → Except Err Dict
  | RVal.enc o => Except.ok o
  | RVal.badJson => Except.error Err.jsonDecode
  | RVal.emptyStr => Except.error Err.jsonDecode

/-- `jsonable_encoder`: the model already keeps values at JSON level. -/
def jsonable_encoder (d : Dict) : Dict := d

/-- `json.dumps` of an object. -/
def json_dumps (d : Dict) : RVal := RVal.enc d

/-- `redis_client.get`: raises a connection error when Redis is unreachable. -/
def redis_get (st : State) (k : String) : Except Err (Option RVal) :=
  if st.redis_up then Except.ok (rget st.redis k) else Except.error Err.cacheUnavailable

/-- `redis_client.set`. -/
def redis_set (st : State) (k : String) (v : RVal) : Except Err Unit × State :=
  if st.redis_up then (Except.ok (), { st with redis := rset st.redis k v })
  else (Except.error Err.cacheUnavailable, st)

/-- `redis_client.flushdb`: empties the entire Redis database. -/
def redis_flushdb (st : State) : Except Err Unit × State :=
  if st.redis_up then (Except.ok (), { st with redis := [] })
  else (Except.error Err.cacheUnavailable, st)

/-- The glob pattern `cliente:*`: does the key start with `cliente:`?
(Checked on the character data so it is computable by the kernel.) -/
def matchesCliente (k : String) : Bool := "cliente:".data.isPrefixOf k.data

/-- `redis_client.keys("cliente:*")`: all keys starting with `cliente:`. -/
def redis_keys_cliente (st : State) : Except Err (List String) :=
  if st.redis_up then
    Except.ok ((st.redis.map Prod.fst).filter matchesCliente)
  else Except.error Err.cacheUnavailable

/-- `montar_dados_consolidados_cliente` (app.py lines 90-152): look up the
customer row (404 if absent), then the purchases, the interest document
(`or {}` when absent, `dict.get` with empty-list defaults), the friends and
the referrals, and assemble the consolidated dict. -/
def montar_dados_consolidados_cliente (src : Sources) (cliente_id : Nat) : Except Err Dict :=
  match src.clientes.find? (fun c => c.id == cliente_id) with
  | none => Except.error (Err.http 404 ("Cliente " ++ toString cliente_id ++ " não encontrado"))
  | some cliente =>
    let compras := src.compras cliente_id
    let doc_interesses := (src.doc_interesses cliente_id).getD
      { interesses := none, tags_comportamento := none }
    let interesses := doc_interesses.interesses.getD []
    let tags_comportamento := doc_interesses.tags_comportamento.getD []
    let amigos := src.amigos cliente_id
    let indicacoes := src.indicacoes cliente_id
    Except.ok
      [("cliente", Field.cli cliente),
       ("compras", Field.compras compras),
       ("interesses", Field.strs interesses),
       ("tags_comportamento", Field.strs tags_comportamento),
       ("amigos", Field.amigos amigos),
       ("indicacoes", Field.inds indicacoes)]

/-- `chave_redis_cliente` (app.py line 155): the cache key for a customer. -/
def chave_redis_cliente (cliente_id : Nat) : String :=
  "cliente:" ++ toString cliente_id

/-- `gerar_recomendacoes` (app.py lines 203-234), the read-through path:
cache GET, truthy hit decodes and gets `origem = "cache_redis"` appended;
otherwise aggregate, respond with `origem = "bancos"` prepended, and SET
the encoded record.  No exception handler: Redis errors, decode errors and
the aggregator's 404 all escape. -/
def gerar_recomendacoes (st : State) (cliente_id : Nat) : Except Err Dict × State :=
  let key := chave_redis_cliente cliente_id
  match redis_get st key with
  | Except.error e => (Except.error e, st)
  | Except.ok cached =>
    match truthyVal cached with
    | some v =>
      match json_loads v with
      | Except.error e => (Except.error e, st)
      | Except.ok data =>
        (Except.ok (dictSet data "origem" (Field.str "cache_redis")), st)
    | none =>
      match montar_dados_consolidados_cliente st.src cliente_id with
      | Except.error e => (Except.error e, st)
      | Except.ok dados =>
        let response := ("origem", Field.str "bancos") :: dados
        match redis_set st key (json_dumps (jsonable_encoder dados)) with
        | (Except.error e, st') => (Except.error e, st')
        | (Except.ok _, st') => (Except.ok response, st')

/-- The per-customer loop of `redis_rebuild` (app.py lines 262-267), over
the enumerated customer ids: aggregate, SET, count.  Any exception escapes
the loop immediately. -/
def rebuild_loop (st : State) (ids : List Nat) (total : Nat) : Except Err Nat × State :=
  match ids with
  | [] => (Except.ok total, st)
  | cid :: rest =>
    match montar_dados_consolidados_cliente st.src cid with
    | Except.error e => (Except.error e, st)
    | Except.ok dados =>
      match redis_set st (chave_redis_cliente cid) (json_dumps (jsonable_encoder dados)) with
      | (Except.error e, st') => (Except.error e, st')
      | (Except.ok _, st') => rebuild_loop st' rest (total + 1)

/-- The `except` clauses of `redis_rebuild`: an `HTTPException` is re-raised
as is, any other exception becomes a 500. -/
def http_500_wrap : Err → Err
  | Err.http s d => Err.http s d
  | Err.jsonDecode => Err.http 500 "json decode error"
  | Err.cacheUnavailable => Err.http 500 "redis connection error"

/-- `redis_rebuild` (app.py lines 240-278): FLUSHDB, enumerate all customer
ids from PostgreSQL, run the per-customer loop, and report only a total. -/
def redis_rebuild (st : State) : Except Err Dict × State :=
  match redis_flushdb st with
  | (Except.error e, st1) => (Except.error (http_500_wrap e), st1)
  | (Except.ok _, st1) =>
    let clientes_ids := st1.src.clientes.map (fun c => c.id)
    match rebuild_loop st1 clientes_ids 0 with
    | (Except.error e, st2) => (Except.error (http_500_wrap e), st2)
    | (Except.ok total, st2) =>
      (Except.ok
        [("status", Field.str "ok"),
         ("mensagem", Field.str "Redis reconstruído com sucesso"),
         ("total_clientes", Field.nat total)], st2)

/-- The loop body of `_carregar_todos_clientes_redis`: GET the key, skip
falsy raw values (`if not raw: continue`) and values that fail to decode
(`except json.JSONDecodeError: continue`).  The reachability check already
happened at the KEYS call, so the raw contents are consulted directly. -/
def decode_entry (st : State) (k : String) : Option Dict :=
  match truthyVal (rget st.redis k) with
  | none => none
  | some v =>
    match json_loads v with
    | Except.error _ => none
    | Except.ok d => some d

/-- `_carregar_todos_clientes_redis` (app.py lines 283-298): KEYS
`cliente:*`, then decode each entry, skipping falsy and undecodable ones. -/
def _carregar_todos_clientes_redis (st : State) : Except Err (List Dict) :=
  match redis_keys_cliente st with
  | Except.error e => Except.error e
  | Except.ok keys => Except.ok (keys.filterMap (decode_entry st))

/-- Response of `/Rclientes`. -/
structure RespClientes where
  origem : String
  clientes : List Field
deriving DecidableEq, Repr

/-- `redis_listar_clientes` (app.py lines 301-308): project the `cliente`
field of every record that has one (`if "cliente" in d` filters). -/
def redis_listar_clientes (st : State) : Except Err RespClientes :=
  match _carregar_todos_clientes_redis st with
  | Except.error e => Except.error e
  | Except.ok dados =>
    Except.ok { origem := "redis", clientes := dados.filterMap (fun d => dget d "cliente") }

/-- The loop body of `redis_clientes_amigos`: `d.get("cliente")` defaults to
`None`, `d.get("amigos", [])` to the empty list (typed here by the field). -/
def proj_cliente_amigos (d : Dict) : Dict :=
  [("cliente", (dget d "cliente").getD Field.null),
   ("amigos", (dget d "amigos").getD (Field.amigos []))]

/-- Response of `/Rclientes-amigos`. -/
structure RespClientesAmigos where
  origem : String
  clientes_amigos : List Dict
deriving DecidableEq, Repr

/-- `redis_clientes_amigos` (app.py lines 311-327). -/
def redis_clientes_amigos (st : State) : Except Err RespClientesAmigos :=
  match _carregar_todos_clientes_redis st with
  | Except.error e => Except.error e
  | Except.ok dados =>
    Except.ok { origem := "redis", clientes_amigos := dados.map proj_cliente_amigos }

/-- The loop body of `redis_clientes_compras`. -/
def proj_cliente_compras (d : Dict) : Dict :=
  [("cliente", (dget d "cliente").getD Field.null),
   ("compras", (dget d "compras").getD (Field.compras []))]

/-- Response of `/Rclientes-compras`. -/
structure RespClientesCompras where
  origem : String
  clientes_compras : List Dict
deriving DecidableEq, Repr

/-- `redis_clientes_compras` (app.py lines 330-346). -/
def redis_clientes_compras (st : State) : Except Err RespClientesCompras :=
  match _carregar_todos_clientes_redis st with
  | Except.error e => Except.error e
  | Except.ok dados =>
    Except.ok { origem := "redis", clientes_compras := dados.map proj_cliente_compras }

/-- The loop body of `redis_amigos_recomendacoes`. -/
def proj_amigos_recomendacoes (d : Dict) : Dict :=
  [("cliente", (dget d "cliente").getD Field.null),
   ("amigos", (dget d "amigos").getD (Field.amigos [])),
   ("indicacoes", (dget d "indicacoes").getD (Field.inds []))]

/-- Response of `/Ramigos-recomendacoes`. -/
structure RespAmigosRec where
  origem : String
  amigos_recomendacoes : List Dict
deriving DecidableEq, Repr

/-- `redis_amigos_recomendacoes` (app.py lines 349-373). -/
def redis_amigos_recomendacoes (st : State) : Except Err RespAmigosRec :=
  match _carregar_todos_clientes_redis st with
  | Except.error e => Except.error e
  | Except.ok dados =>
    Except.ok { origem := "redis", amigos_recomendacoes := dados.map proj_amigos_recomendacoes }

/-- A source store with no customers and empty query results. -/
def srcVazio : Sources :=
  { clientes := []
    compras := fun _ => []
    doc_interesses := fun _ => none
    amigos := fun _ => []
    indicacoes := fun _ => [] }

/-- A source store with exactly one customer (id 1, no purchases, no
interest document, no friends, no referrals). -/
def srcAna : Sources :=
  { clientes := [{ id := 1, nome := "Ana" }]
    compras := fun _ => []
    doc_interesses := fun _ => none
    amigos := fun _ => []
    indicacoes := fun _ => [] }

/-- The consolidated record the aggregator produces for customer 1 of `srcAna`. -/
def dadosAna : Dict :=
  [("cliente", Field.cli { id := 1, nome := "Ana" }),
   ("compras", Field.compras []),
   ("interesses", Field.strs []),
   ("tags_comportamento", Field.strs []),
   ("amigos", Field.amigos []),
   ("indicacoes", Field.inds [])]

/-! ### Lemmas about the association-list primitives -/

theorem alookup_astore {β : Type} (l : List (String × β)) (k k' : String) (v : β) :
    alookup (astore l k v) k' = if k == k' then some v else alookup l k' := by
  induction l with
  | nil => simp [astore, alookup]
  | cons p l ih =>
    obtain ⟨k0, v0⟩ := p
    by_cases h0 : k0 = k
    · subst h0
      by_cases h1 : k0 = k'
      · subst h1; simp [astore, alookup]
      · simp [astore, alookup, h1]
    · by_cases h1 : k0 = k'
      · subst h1
        simp [astore, alookup, h0, Ne.symm h0, ih]
      · simp [astore, alookup, h0, h1, ih]

theorem dget_dictSet (d : Dict) (k k' : String) (v : Field) :
    dget (dictSet d k v) k' = if k == k' then some v else dget d k' :=
  alookup_astore d k k' v

theorem rget_rset (r : List (String × RVal)) (k k' : String) (v : RVal) :
    rget (rset r k v) k' = if k == k' then some v else rget r k' :=
  alookup_astore r k k' v

/-! ### Lemmas about the aggregator -/

theorem montar_not_found (src : Sources) (cid : Nat)
    (h : src.clientes.find? (fun c => c.id == cid) = none) :
    montar_dados_consolidados_cliente src cid =
      Except.error (Err.http 404 ("Cliente " ++ toString cid ++ " não encontrado")) := by
  simp [montar_dados_consolidados_cliente, h]

theorem montar_found (src : Sources) (cid : Nat) (c : Cliente)
    (h : src.clientes.find? (fun c => c.id == cid) = some c) :
    montar_dados_consolidados_cliente src cid = Except.ok
      [("cliente", Field.cli c),
       ("compras", Field.compras (src.compras cid)),
       ("interesses", Field.strs
         (((src.doc_interesses cid).getD
           { interesses := none, tags_comportamento := none }).interesses.getD [])),
       ("tags_comportamento", Field.strs
         (((src.doc_interesses cid).getD
           { interesses := none, tags_comportamento := none }).tags_comportamento.getD [])),
       ("amigos", Field.amigos (src.amigos cid)),
       ("indicacoes", Field.inds (src.indicacoes cid))] := by
  simp [montar_dados_consolidados_cliente, h]

theorem montar_origem_none {src : Sources} {cid : Nat} {dados : Dict}
    (h : montar_dados_consolidados_cliente src cid = Except.ok dados) :
    dget dados "origem" = none := by
  cases hf : src.clientes.find? (fun c => c.id == cid) with
  | none => rw [montar_not_found src cid hf] at h; cases h
  | some c =>
    rw [montar_found src cid c hf] at h
    injection h with h2
    subst h2
    rfl

theorem montar_ok_of_found {src : Sources} {cid : Nat}
    (h : (src.clientes.find? (fun c => c.id == cid)).isSome = true) :
    ∃ dados, montar_dados_consolidados_cliente src cid = Except.ok dados := by
  cases hf : src.clientes.find? (fun c => c.id == cid) with
  | none => rw [hf] at h; cases h
  | some c => exact ⟨_, montar_found src cid c hf⟩

/-! ### Branch lemmas for the read-through handler -/

theorem gerar_cache_down (st : State) (cid : Nat) (h : st.redis_up = false) :
    gerar_recomendacoes st cid = (Except.error Err.cacheUnavailable, st) := by
  simp [gerar_recomendacoes, redis_get, h]

theorem gerar_hit (st : State) (cid : Nat) (o : Dict)
    (hup : st.redis_up = true)
    (hv : truthyVal (rget st.redis (chave_redis_cliente cid)) = some (RVal.enc o)) :
    gerar_recomendacoes st cid =
      (Except.ok (dictSet o "origem" (Field.str "cache_redis")), st) := by
  simp [gerar_recomendacoes, redis_get, hup, hv, json_loads]

theorem gerar_hit_bad (st : State) (cid : Nat)
    (hup : st.redis_up = true)
    (hv : truthyVal (rget st.redis (chave_redis_cliente cid)) = some RVal.badJson) :
    gerar_recomendacoes st cid = (Except.error Err.jsonDecode, st) := by
  simp [gerar_recomendacoes, redis_get, hup, hv, json_loads]

theorem gerar_miss_not_found (st : State) (cid : Nat)
    (hup : st.redis_up = true)
    (hm : truthyVal (rget st.redis (chave_redis_cliente cid)) = none)
    (hf : st.src.clientes.find? (fun c => c.id == cid) = none) :
    gerar_recomendacoes st cid =
      (Except.error (Err.http 404 ("Cliente " ++ toString cid ++ " não encontrado")), st) := by
  simp [gerar_recomendacoes, redis_get, hup, hm, montar_not_found st.src cid hf]

theorem gerar_miss_ok (st : State) (cid : Nat) (dados : Dict)
    (hup : st.redis_up = true)
    (hm : truthyVal (rget st.redis (chave_redis_cliente cid)) = none)
    (hmo : montar_dados_consolidados_cliente st.src cid = Except.ok dados) :
    gerar_recomendacoes st cid =
      (Except.ok (("origem", Field.str "bancos") :: dados),
        { st with redis := rset st.redis (chave_redis_cliente cid) (RVal.enc dados) }) := by
  simp [gerar_recomendacoes, redis_get, hup, hm, hmo, redis_set, json_dumps, jsonable_encoder]

/-! ### Lemmas about the rebuild loop -/

theorem rebuild_loop_spec (ids : List Nat) :
    ∀ (st : State) (t : Nat),
      st.redis_up = true →
      (∀ cid ∈ ids, (st.src.clientes.find? (fun c => c.id == cid)).isSome = true) →
      ∃ st2, rebuild_loop st ids t = (Except.ok (t + ids.length), st2) ∧
        st2.src = st.src ∧ st2.redis_up = true ∧
        (∀ k, k ∉ ids.map chave_redis_cliente → rget st2.redis k = rget st.redis k) ∧
        ((ids.map chave_redis_cliente).Nodup →
          ∀ cid ∈ ids, ∃ dados,
            montar_dados_consolidados_cliente st.src cid = Except.ok dados ∧
            rget st2.redis (chave_redis_cliente cid) = some (RVal.enc dados)) := by
  induction ids with
  | nil =>
    intro st t hup _
    exact ⟨st, by simp [rebuild_loop], rfl, hup, fun k _ => rfl, by simp⟩
  | cons cid rest ih =>
    intro st t hup hfound
    obtain ⟨dados, hmo⟩ := montar_ok_of_found (hfound cid (List.mem_cons_self cid rest))
    have hset : redis_set st (chave_redis_cliente cid) (json_dumps (jsonable_encoder dados)) =
        (Except.ok (),
          { st with redis := rset st.redis (chave_redis_cliente cid) (RVal.enc dados) }) := by
      simp [redis_set, hup, json_dumps, jsonable_encoder]
    have hfound' : ∀ c ∈ rest,
        ((State.mk st.src (rset st.redis (chave_redis_cliente cid) (RVal.enc dados))
          st.redis_up).src.clientes.find? (fun x => x.id == c)).isSome = true := by
      intro c hc
      exact hfound c (List.mem_cons_of_mem _ hc)
    obtain ⟨st2, hloop, hsrc2, hup2, hframe, hcontent⟩ :=
      ih { st with redis := rset st.redis (chave_redis_cliente cid) (RVal.enc dados) }
        (t + 1) hup hfound'
    have harith : t + 1 + rest.length = t + (cid :: rest).length := by
      simp [List.length_cons]; omega
    have hstep : rebuild_loop st (cid :: rest) t = (Except.ok (t + (cid :: rest).length), st2) := by
      simp only [rebuild_loop, hmo, hset, hloop, harith]
    refine ⟨st2, hstep, hsrc2, hup2, ?_, ?_⟩
    · intro k hk
      rw [List.map_cons, List.mem_cons] at hk
      push_neg at hk
      obtain ⟨hk1, hk2⟩ := hk
      rw [hframe k hk2]
      show rget (rset st.redis (chave_redis_cliente cid) (RVal.enc dados)) k = rget st.redis k
      rw [rget_rset, if_neg]
      simp only [beq_iff_eq]
      exact Ne.symm hk1
    · intro hnd cid' hcid'
      rw [List.map_cons, List.nodup_cons] at hnd
      obtain ⟨hnotin, hndrest⟩ := hnd
      rcases List.mem_cons.mp hcid' with rfl | hmem
      · refine ⟨dados, hmo, ?_⟩
        rw [hframe (chave_redis_cliente cid') hnotin]
        show rget (rset st.redis (chave_redis_cliente cid') (RVal.enc dados))
          (chave_redis_cliente cid') = some (RVal.enc dados)
        rw [rget_rset, if_pos]
        exact beq_self_eq_true _
      · obtain ⟨dados', hmo', hget'⟩ := hcontent hndrest cid' hmem
        exact ⟨dados', hmo', hget'⟩

theorem gerar_miss_err (st : State) (cid : Nat) (e : Err)
    (hup : st.redis_up = true)
    (hm : truthyVal (rget st.redis (chave_redis_cliente cid)) = none)
    (hmo : montar_dados_consolidados_cliente st.src cid = Except.error e) :
    gerar_recomendacoes st cid = (Except.error e, st) := by
  simp [gerar_recomendacoes, redis_get, hup, hm, hmo]

/-- A successful rebuild on a reachable cache: every enumerated customer is
aggregated and stored, the response reports the total and nothing else. -/
theorem redis_rebuild_ok (st : State) (hup : st.redis_up = true)
    (hnd : (st.src.clientes.map (fun c => chave_redis_cliente c.id)).Nodup) :
    ∃ st2, redis_rebuild st =
      (Except.ok
        [("status", Field.str "ok"),
         ("mensagem", Field.str "Redis reconstruído com sucesso"),
         ("total_clientes", Field.nat st.src.clientes.length)], st2) ∧
      st2.src = st.src ∧ st2.redis_up = true ∧
      ∀ c ∈ st.src.clientes, ∃ dados,
        montar_dados_consolidados_cliente st.src c.id = Except.ok dados ∧
        rget st2.redis (chave_redis_cliente c.id) = some (RVal.enc dados) := by
  have hflush : redis_flushdb st = (Except.ok (), { st with redis := [] }) := by
    simp [redis_flushdb, hup]
  have hfound : ∀ cid ∈ st.src.clientes.map (fun c => c.id),
      ((State.mk st.src [] st.redis_up).src.clientes.find? (fun c => c.id == cid)).isSome
        = true := by
    intro cid hcid
    rw [List.mem_map] at hcid
    obtain ⟨c, hc, rfl⟩ := hcid
    exact List.find?_isSome.mpr ⟨c, hc, by simp⟩
  have hndids : ((st.src.clientes.map (fun c => c.id)).map chave_redis_cliente).Nodup := by
    rw [List.map_map]
    exact hnd
  obtain ⟨st2, hloop, hsrc2, hup2, _, hcontent⟩ :=
    rebuild_loop_spec (st.src.clientes.map (fun c => c.id)) { st with redis := [] } 0 hup hfound
  refine ⟨st2, ?_, hsrc2, hup2, ?_⟩
  · simp only [redis_rebuild, hflush, hloop, Nat.zero_add, List.length_map]
  · intro c hc
    exact hcontent hndids c.id (List.mem_map_of_mem _ hc)

/-- The stored-record invariant the rebuild loop maintains: every value in
the cache is the encoding of an object with no `origem` key. -/
theorem rebuild_loop_inv (ids : List Nat) :
    ∀ (st : State) (t : Nat) (res : Except Err Nat) (st2 : State),
      rebuild_loop st ids t = (res, st2) →
      (∀ k v, rget st.redis k = some v → ∃ o, v = RVal.enc o ∧ dget o "origem" = none) →
      ∀ k v, rget st2.redis k = some v → ∃ o, v = RVal.enc o ∧ dget o "origem" = none := by
  induction ids with
  | nil =>
    intro st t res st2 hrun hinv
    rw [rebuild_loop] at hrun
    injection hrun with h1 h2
    subst h2
    exact hinv
  | cons cid rest ih =>
    intro st t res st2 hrun hinv
    rw [rebuild_loop] at hrun
    cases hmo : montar_dados_consolidados_cliente st.src cid with
    | error e =>
      simp only [hmo] at hrun
      injection hrun with h1 h2
      subst h2
      exact hinv
    | ok dados =>
      simp only [hmo] at hrun
      by_cases hup : st.redis_up
      · have hset : redis_set st (chave_redis_cliente cid) (json_dumps (jsonable_encoder dados)) =
            (Except.ok (),
              { st with redis := rset st.redis (chave_redis_cliente cid) (RVal.enc dados) }) := by
          simp [redis_set, hup, json_dumps, jsonable_encoder]
        simp only [hset] at hrun
        refine ih _ (t + 1) res st2 hrun ?_
        intro k v hk
        rw [show ({ st with redis := rset st.redis (chave_redis_cliente cid) (RVal.enc dados) }
            : State).redis = rset st.redis (chave_redis_cliente cid) (RVal.enc dados) from rfl,
          rget_rset] at hk
        by_cases hkey : chave_redis_cliente cid == k
        · rw [if_pos hkey] at hk
          injection hk with hk
          exact ⟨dados, hk.symm, montar_origem_none hmo⟩
        · rw [if_neg hkey] at hk
          exact hinv k v hk
      · have hset : redis_set st (chave_redis_cliente cid) (json_dumps (jsonable_encoder dados)) =
            (Except.error Err.cacheUnavailable, st) := by
          simp [redis_set, hup]
        simp only [hset] at hrun
        injection hrun with h1 h2
        subst h2
        exact hinv

/-- After any successful rebuild, every value stored in Redis is the
encoding of an object with no `origem` key. -/
theorem redis_rebuild_stored_inv (st : State) (resp : Dict) (st2 : State)
    (h : redis_rebuild st = (Except.ok resp, st2)) :
    ∀ k v, rget st2.redis k = some v → ∃ o, v = RVal.enc o ∧ dget o "origem" = none := by
  by_cases hup : st.redis_up
  · have hflush : redis_flushdb st = (Except.ok (), { st with redis := [] }) := by
      simp [redis_flushdb, hup]
    rw [redis_rebuild] at h
    simp only [hflush] at h
    split at h
    · exact absurd h (by simp)
    · next total st' heq =>
      injection h with h1 h2
      subst h2
      refine rebuild_loop_inv _ _ _ _ _ heq ?_
      intro k v hk
      exact absurd hk (by simp [rget, alookup])
  · have hflush : redis_flushdb st = (Except.error Err.cacheUnavailable, st) := by
      simp [redis_flushdb, hup]
    rw [redis_rebuild] at h
    simp only [hflush] at h
    exact absurd h (by simp [http_500_wrap])

/-- Any value the read-through handler adds to the cache is the encoding of
an object with no `origem` key. -/
theorem gerar_stored_inv (st : State) (cid : Nat) :
    ∀ k v, rget (gerar_recomendacoes st cid).2.redis k = some v →
      rget st.redis k = some v ∨ ∃ o, v = RVal.enc o ∧ dget o "origem" = none := by
  by_cases hup : st.redis_up
  · have misscase : truthyVal (rget st.redis (chave_redis_cliente cid)) = none →
        ∀ k v, rget (gerar_recomendacoes st cid).2.redis k = some v →
          rget st.redis k = some v ∨ ∃ o, v = RVal.enc o ∧ dget o "origem" = none := by
      intro hv k v hk
      cases hmo : montar_dados_consolidados_cliente st.src cid with
      | error e =>
        rw [gerar_miss_err st cid e hup hv hmo] at hk
        exact Or.inl hk
      | ok dados =>
        rw [gerar_miss_ok st cid dados hup hv hmo] at hk
        rw [show ({ st with redis := rset st.redis (chave_redis_cliente cid) (RVal.enc dados) }
            : State).redis = rset st.redis (chave_redis_cliente cid) (RVal.enc dados) from rfl,
          rget_rset] at hk
        by_cases hkey : chave_redis_cliente cid == k
        · rw [if_pos hkey] at hk
          injection hk with hk
          exact Or.inr ⟨dados, hk.symm, montar_origem_none hmo⟩
        · rw [if_neg hkey] at hk
          exact Or.inl hk
    cases hr : rget st.redis (chave_redis_cliente cid) with
    | none => exact misscase (by rw [hr]; rfl)
    | some v0 =>
      cases v0 with
      | enc o =>
        intro k v hk
        rw [gerar_hit st cid o hup (by rw [hr]; rfl)] at hk
        exact Or.inl hk
      | badJson =>
        intro k v hk
        rw [gerar_hit_bad st cid hup (by rw [hr]; rfl)] at hk
        exact Or.inl hk
      | emptyStr => exact misscase (by rw [hr]; rfl)
  · intro k v hk
    rw [gerar_cache_down st cid (by simpa using hup)] at hk
    exact Or.inl hk

theorem dget_cons (k0 : String) (v : Field) (d : Dict) (k : String) :
    dget ((k0, v) :: d) k = if k0 == k then some v else dget d k := rfl

theorem truthyVal_eq_some {x : Option RVal} {v : RVal} (h : truthyVal x = some v) :
    x = some v := by
  cases x with
  | none => simp [truthyVal] at h
  | some v0 => cases v0 <;> simp_all [truthyVal]

/-! ### Concrete states used by counterexamples and witnesses -/

/-- Reachable cache, empty Redis, no customers. -/
def st0 : State := { src := srcVazio, redis := [], redis_up := true }

/-- Reachable cache, empty Redis, customer 1 present in the sources. -/
def stAna : State := { src := srcAna, redis := [], redis_up := true }

/-- The state after a successful rebuild from `stAna`. -/
def stAnaRebuilt : State :=
  { src := srcAna, redis := [("cliente:1", RVal.enc dadosAna)], redis_up := true }

/-- The response of a successful rebuild from `stAna`. -/
def respRebuildAna : Dict :=
  [("status", Field.str "ok"),
   ("mensagem", Field.str "Redis reconstruído com sucesso"),
   ("total_clientes", Field.nat 1)]

/-- Redis holds a key outside the `cliente:` namespace; no customers. -/
def stForeign : State :=
  { src := srcVazio, redis := [("outra:1", RVal.enc [])], redis_up := true }

/-- Redis unreachable; customer 1 present in the sources. -/
def stDown : State := { src := srcAna, redis := [], redis_up := false }

/-- Customer 1 present; its cache entry holds an undecodable string. -/
def stBad : State :=
  { src := srcAna, redis := [("cliente:1", RVal.badJson)], redis_up := true }

/-- A `cliente:` key whose value decodes to an empty JSON object. -/
def stEnc : State :=
  { src := srcVazio, redis := [("cliente:1", RVal.enc [])], redis_up := true }

example : montar_dados_consolidados_cliente srcAna 1 = Except.ok dadosAna := rfl

example :
    (gerar_recomendacoes { src := srcAna, redis := [], redis_up := true } 1).1 =
      Except.ok (("origem", Field.str "bancos") :: dadosAna) := rfl

example :
    (redis_rebuild { src := srcAna, redis := [], redis_up := true }).1 =
      Except.ok
        [("status", Field.str "ok"),
         ("mensagem", Field.str "Redis reconstruído com sucesso"),
         ("total_clientes", Field.nat 1)] := rfl

/-! ### Claim C2 -/

/-- C2 counterexample: the rebuild's flush destroys a key outside the
`cliente:` namespace — `outra:1` is present before `RebuildAll` and gone
after it, although the rebuild succeeded. -/
theorem c2_flush_destroys_foreign_key :
    rget stForeign.redis "outra:1" = some (RVal.enc []) ∧
    (redis_rebuild stForeign).1 =
      Except.ok
        [("status", Field.str "ok"),
         ("mensagem", Field.str "Redis reconstruído com sucesso"),
         ("total_clientes", Field.nat 0)] ∧
    rget (redis_rebuild stForeign).2.redis "outra:1" = none :=
  ⟨rfl, rfl, rfl⟩

/-- C2 amended: the flush performed at the start of RebuildAll is `FLUSHDB`:
when the cache is reachable it succeeds and removes every key of the entire
Redis database, including keys outside the `cliente:` namespace. -/
theorem c2_flushdb_removes_every_key (st : State) (hup : st.redis_up = true) :
    (redis_flushdb st).1 = Except.ok () ∧
    ∀ k, rget (redis_flushdb st).2.redis k = none := by
  constructor
  · simp [redis_flushdb, hup]
  · intro k
    simp [redis_flushdb, hup, rget, alookup]

/-- C2 witness: the amended flush behaviour at the concrete state `stForeign`. -/
theorem c2_flushdb_removes_every_key_witness :
    (redis_flushdb stForeign).1 = Except.ok () ∧
    ∀ k, rget (redis_flushdb stForeign).2.redis k = none :=
  c2_flushdb_removes_every_key stForeign rfl

/-! ### Claim C3 -/

/-- C3 counterexample: with Redis unreachable and customer 1 present in the
relational store, `GetProfile(1)` fails with the connection error instead
of falling back to direct aggregation — although the aggregator alone
would have succeeded. -/
theorem c3_getprofile_fails_when_cache_down :
    (gerar_recomendacoes stDown 1).1 = Except.error Err.cacheUnavailable ∧
    montar_dados_consolidados_cliente stDown.src 1 = Except.ok dadosAna :=
  ⟨rfl, rfl⟩

/-- C3 amended: when the key-value store is unreachable, `GetProfile` fails
outright with the connection error (no fallback to direct aggregation, no
cache write), and `RebuildAll` fails outright with a 500. -/
theorem c3_cache_down_both_fail (st : State) (cid : Nat) (hdown : st.redis_up = false) :
    gerar_recomendacoes st cid = (Except.error Err.cacheUnavailable, st) ∧
    redis_rebuild st = (Except.error (Err.http 500 "redis connection error"), st) := by
  refine ⟨gerar_cache_down st cid hdown, ?_⟩
  have hflush : redis_flushdb st = (Except.error Err.cacheUnavailable, st) := by
    simp [redis_flushdb, hdown]
  rw [redis_rebuild]
  simp only [hflush]
  rfl

/-- C3 witness: both failures at the concrete unreachable-cache state. -/
theorem c3_cache_down_both_fail_witness :
    gerar_recomendacoes stDown 1 = (Except.error Err.cacheUnavailable, stDown) ∧
    redis_rebuild stDown = (Except.error (Err.http 500 "redis connection error"), stDown) :=
  c3_cache_down_both_fail stDown 1 rfl

/-! ### Claim C4 -/

/-- C4 counterexample: with `cliente:1` holding an undecodable string and
customer 1 present in the sources, `GetProfile(1)` fails hard with the
decode error instead of re-aggregating (which would have succeeded); the
bulk loader, by contrast, just skips the entry. -/
theorem c4_getprofile_fails_on_bad_json :
    (gerar_recomendacoes stBad 1).1 = Except.error Err.jsonDecode ∧
    montar_dados_consolidados_cliente stBad.src 1 = Except.ok dadosAna ∧
    _carregar_todos_clientes_redis stBad = Except.ok [] :=
  ⟨rfl, rfl, rfl⟩

/-- C4 amended: an undecodable cached value makes `GetProfile` fail hard
with a decode error — it is not treated as a miss; only the bulk read-view
loader skips undecodable entries: on a reachable cache it always succeeds,
and every record it returns comes from an entry that decoded. -/
theorem c4_decode_error_semantics :
    (∀ (st : State) (cid : Nat), st.redis_up = true →
      rget st.redis (chave_redis_cliente cid) = some RVal.badJson →
      gerar_recomendacoes st cid = (Except.error Err.jsonDecode, st)) ∧
    (∀ st : State, st.redis_up = true →
      ∃ l, _carregar_todos_clientes_redis st = Except.ok l ∧
        ∀ d ∈ l, ∃ k, rget st.redis k = some (RVal.enc d)) := by
  constructor
  · intro st cid hup hbad
    exact gerar_hit_bad st cid hup (by rw [hbad]; rfl)
  · intro st hup
    have hkeys : redis_keys_cliente st =
        Except.ok ((st.redis.map Prod.fst).filter matchesCliente) := by
      simp [redis_keys_cliente, hup]
    have hc : _carregar_todos_clientes_redis st =
        Except.ok (((st.redis.map Prod.fst).filter matchesCliente).filterMap
          (decode_entry st)) := by
      simp only [_carregar_todos_clientes_redis, hkeys]
    refine ⟨_, hc, ?_⟩
    intro d hd
    obtain ⟨k, _, hdec⟩ := List.mem_filterMap.mp hd
    refine ⟨k, ?_⟩
    cases ht : truthyVal (rget st.redis k) with
    | none => simp [decode_entry, ht] at hdec
    | some v =>
      cases v with
      | enc o =>
        have : o = d := by simpa [decode_entry, ht, json_loads] using hdec
        subst this
        exact truthyVal_eq_some ht
      | badJson => simp [decode_entry, ht, json_loads] at hdec
      | emptyStr => simp [decode_entry, ht, json_loads] at hdec

/-- C4 witness: the amended semantics at the concrete bad-JSON state. -/
theorem c4_decode_error_semantics_witness :
    gerar_recomendacoes stBad 1 = (Except.error Err.jsonDecode, stBad) ∧
    ∃ l, _carregar_todos_clientes_redis stBad = Except.ok l ∧
      ∀ d ∈ l, ∃ k, rget stBad.redis k = some (RVal.enc d) :=
  ⟨c4_decode_error_semantics.1 stBad 1 rfl rfl,
   c4_decode_error_semantics.2 stBad rfl⟩

/-! ### Claim C7 -/

/-- C7: on a cache miss for a customer with no relational row, the
read-through handler propagates the 404 and leaves the state — in
particular every cache key — exactly as it was. -/
theorem c7_notfound_leaves_cache_unchanged (st : State) (cid : Nat)
    (hup : st.redis_up = true)
    (hmiss : rget st.redis (chave_redis_cliente cid) = none)
    (hnone : st.src.clientes.find? (fun c => c.id == cid) = none) :
    gerar_recomendacoes st cid =
      (Except.error (Err.http 404 ("Cliente " ++ toString cid ++ " não encontrado")), st) ∧
    ∀ k, rget (gerar_recomendacoes st cid).2.redis k = rget st.redis k := by
  have h := gerar_miss_not_found st cid hup (by rw [hmiss]; rfl) hnone
  exact ⟨h, fun k => by rw [h]⟩

/-- C7 witness: `GetProfile(9999)` on `st0` (no relational row, empty cache). -/
theorem c7_notfound_leaves_cache_unchanged_witness :
    gerar_recomendacoes st0 9999 =
      (Except.error (Err.http 404 ("Cliente " ++ toString 9999 ++ " não encontrado")), st0) ∧
    ∀ k, rget (gerar_recomendacoes st0 9999).2.redis k = rget st0.redis k :=
  c7_notfound_leaves_cache_unchanged st0 9999 rfl rfl rfl

/-! ### Claim C8 -/

/-- C8: when the customer exists but has no interest document, the profile
returned on a cache miss carries `interesses` and `tags_comportamento`
keys that are present and bound to empty lists. -/
theorem c8_no_doc_yields_empty_lists (st : State) (cid : Nat) (c : Cliente)
    (hup : st.redis_up = true)
    (hmiss : rget st.redis (chave_redis_cliente cid) = none)
    (hfound : st.src.clientes.find? (fun x => x.id == cid) = some c)
    (hdoc : st.src.doc_interesses cid = none) :
    ∃ resp st', gerar_recomendacoes st cid = (Except.ok resp, st') ∧
      dget resp "interesses" = some (Field.strs []) ∧
      dget resp "tags_comportamento" = some (Field.strs []) := by
  have hmo := montar_found st.src cid c hfound
  rw [hdoc] at hmo
  exact ⟨_, _, gerar_miss_ok st cid _ hup (by rw [hmiss]; rfl) hmo, rfl, rfl⟩

/-- C8 witness: customer 1 of `stAna` has no interest document. -/
theorem c8_no_doc_yields_empty_lists_witness :
    ∃ resp st', gerar_recomendacoes stAna 1 = (Except.ok resp, st') ∧
      dget resp "interesses" = some (Field.strs []) ∧
      dget resp "tags_comportamento" = some (Field.strs []) :=
  c8_no_doc_yields_empty_lists stAna 1 { id := 1, nome := "Ana" } rfl rfl rfl rfl

/-! ### Claim C5 -/

/-- C5: for a customer present in the relational store and not yet cached,
two consecutive `GetProfile` calls with no intervening writes return the
same record up to the `origem` key: the first tagged `bancos`, the second
tagged `cache_redis`, agreeing at every other key; the second call leaves
the state unchanged. -/
theorem c5_read_through_idempotent (st : State) (cid : Nat) (c : Cliente)
    (hup : st.redis_up = true)
    (hmiss : rget st.redis (chave_redis_cliente cid) = none)
    (hfound : st.src.clientes.find? (fun x => x.id == cid) = some c) :
    ∃ resp1 resp2 st1,
      gerar_recomendacoes st cid = (Except.ok resp1, st1) ∧
      gerar_recomendacoes st1 cid = (Except.ok resp2, st1) ∧
      dget resp1 "origem" = some (Field.str "bancos") ∧
      dget resp2 "origem" = some (Field.str "cache_redis") ∧
      ∀ k, k ≠ "origem" → dget resp2 k = dget resp1 k := by
  obtain ⟨dados, hmo⟩ := montar_ok_of_found (by rw [hfound]; rfl)
  have h1 := gerar_miss_ok st cid dados hup (by rw [hmiss]; rfl) hmo
  set st1 : State :=
    { st with redis := rset st.redis (chave_redis_cliente cid) (RVal.enc dados) } with hst1
  have hget1 : rget st1.redis (chave_redis_cliente cid) = some (RVal.enc dados) := by
    show rget (rset st.redis (chave_redis_cliente cid) (RVal.enc dados)) _ = _
    rw [rget_rset, if_pos (beq_self_eq_true _)]
  have h2 := gerar_hit st1 cid dados hup (by rw [hget1]; rfl)
  refine ⟨("origem", Field.str "bancos") :: dados,
    dictSet dados "origem" (Field.str "cache_redis"), _, h1, h2, rfl, ?_, ?_⟩
  · rw [dget_dictSet, if_pos (beq_self_eq_true _)]
  · intro k hk
    have hne : (("origem" : String) == k) = false :=
      beq_eq_false_iff_ne.mpr (Ne.symm hk)
    rw [dget_dictSet, dget_cons, hne]
    simp

/-- C5 witness: the two calls at the concrete state `stAna`, customer 1. -/
theorem c5_read_through_idempotent_witness :
    ∃ resp1 resp2 st1,
      gerar_recomendacoes stAna 1 = (Except.ok resp1, st1) ∧
      gerar_recomendacoes st1 1 = (Except.ok resp2, st1) ∧
      dget resp1 "origem" = some (Field.str "bancos") ∧
      dget resp2 "origem" = some (Field.str "cache_redis") ∧
      ∀ k, k ≠ "origem" → dget resp2 k = dget resp1 k :=
  c5_read_through_idempotent stAna 1 { id := 1, nome := "Ana" } rfl rfl rfl

/-! ### Claim C6 -/

/-- C6 counterexample: a successful rebuild over a store with one customer
returns only `status`, `mensagem` and `total_clientes` — there is no
failure-list field of any kind in the response (in particular none named
`failed`), so the claim's "empty failure list" does not exist. -/
theorem c6_rebuild_response_has_no_failure_list :
    redis_rebuild stAna = (Except.ok respRebuildAna, stAnaRebuilt) ∧
    respRebuildAna.map Prod.fst = ["status", "mensagem", "total_clientes"] ∧
    dget respRebuildAna "failed" = none :=
  ⟨rfl, rfl, rfl⟩

/-- C6 amended: a rebuild over a reachable cache with N customers (with
pairwise distinct cache keys, the primary-key invariant) succeeds with
`total_clientes = N`; the response carries no failure-list field (its keys
are exactly `status`, `mensagem`, `total_clientes`); and afterward
`GetProfile` for each of the N customers is answered from the cache —
tagged `cache_redis`, with the state left unchanged, so no new aggregation
or cache write happens. -/
theorem c6_rebuild_then_cache_hits (st : State) (hup : st.redis_up = true)
    (hnd : (st.src.clientes.map (fun c => chave_redis_cliente c.id)).Nodup) :
    ∃ resp st2,
      redis_rebuild st = (Except.ok resp, st2) ∧
      dget resp "total_clientes" = some (Field.nat st.src.clientes.length) ∧
      resp.map Prod.fst = ["status", "mensagem", "total_clientes"] ∧
      ∀ c ∈ st.src.clientes, ∃ dados,
        gerar_recomendacoes st2 c.id =
          (Except.ok (dictSet dados "origem" (Field.str "cache_redis")), st2) ∧
        dget (dictSet dados "origem" (Field.str "cache_redis")) "origem" =
          some (Field.str "cache_redis") := by
  obtain ⟨st2, hreb, hsrc2, hup2, hcontent⟩ := redis_rebuild_ok st hup hnd
  refine ⟨_, st2, hreb, rfl, rfl, ?_⟩
  intro c hc
  obtain ⟨dados, hmo, hget⟩ := hcontent c hc
  refine ⟨dados, gerar_hit st2 c.id dados hup2 (by rw [hget]; rfl), ?_⟩
  rw [dget_dictSet, if_pos (beq_self_eq_true _)]

/-- C6 witness: the amended rebuild behaviour at the concrete state `stAna`. -/
theorem c6_rebuild_then_cache_hits_witness :
    ∃ resp st2,
      redis_rebuild stAna = (Except.ok resp, st2) ∧
      dget resp "total_clientes" = some (Field.nat stAna.src.clientes.length) ∧
      resp.map Prod.fst = ["status", "mensagem", "total_clientes"] ∧
      ∀ c ∈ stAna.src.clientes, ∃ dados,
        gerar_recomendacoes st2 c.id =
          (Except.ok (dictSet dados "origem" (Field.str "cache_redis")), st2) ∧
        dget (dictSet dados "origem" (Field.str "cache_redis")) "origem" =
          some (Field.str "cache_redis") :=
  c6_rebuild_then_cache_hits stAna rfl (by decide)

/-! ### Claim C9 -/

/-- C9 counterexample: over a cache whose single `cliente:` entry decodes
to an empty object, the profiles-only view returns zero records for one
input record (it filters on the `cliente` key, so it is not one-output-
per-input), and the friends view projects the absent `cliente` field to
`null`, not to an empty collection. -/
theorem c9_views_filter_and_null :
    _carregar_todos_clientes_redis stEnc = Except.ok [[]] ∧
    redis_listar_clientes stEnc = Except.ok { origem := "redis", clientes := [] } ∧
    redis_clientes_amigos stEnc = Except.ok
      { origem := "redis",
        clientes_amigos := [[("cliente", Field.null), ("amigos", Field.amigos [])]] } :=
  ⟨rfl, rfl, rfl⟩

/-- C9 amended: the three composite views are deterministic maps producing
exactly one output record per decoded input record, and an absent list
field (`amigos`, `compras`, `indicacoes`) projects to the empty collection;
but an absent `cliente` field projects to `null`, and the profiles-only
view filters out records lacking the `cliente` key instead of mapping
them, so it may produce fewer outputs than inputs. -/
theorem c9_views_shape :
    (∀ (st : State) (dados : List Dict),
      _carregar_todos_clientes_redis st = Except.ok dados →
      (∃ r, redis_clientes_amigos st = Except.ok r ∧
        r.clientes_amigos = dados.map proj_cliente_amigos ∧
        r.clientes_amigos.length = dados.length) ∧
      (∃ r, redis_clientes_compras st = Except.ok r ∧
        r.clientes_compras = dados.map proj_cliente_compras ∧
        r.clientes_compras.length = dados.length) ∧
      (∃ r, redis_amigos_recomendacoes st = Except.ok r ∧
        r.amigos_recomendacoes = dados.map proj_amigos_recomendacoes ∧
        r.amigos_recomendacoes.length = dados.length) ∧
      (∃ r, redis_listar_clientes st = Except.ok r ∧
        r.clientes = dados.filterMap (fun d => dget d "cliente") ∧
        r.clientes.length ≤ dados.length)) ∧
    (∀ d : Dict, dget d "amigos" = none →
      dget (proj_cliente_amigos d) "amigos" = some (Field.amigos [])) ∧
    (∀ d : Dict, dget d "compras" = none →
      dget (proj_cliente_compras d) "compras" = some (Field.compras [])) ∧
    (∀ d : Dict, dget d "indicacoes" = none →
      dget (proj_amigos_recomendacoes d) "indicacoes" = some (Field.inds [])) ∧
    (∀ d : Dict, dget d "cliente" = none →
      dget (proj_cliente_amigos d) "cliente" = some Field.null) := by
  refine ⟨?_, ?_, ?_, ?_, ?_⟩
  · intro st dados h
    refine
      ⟨⟨{ origem := "redis", clientes_amigos := dados.map proj_cliente_amigos },
          ?_, rfl, by rw [List.length_map]⟩,
        ⟨{ origem := "redis", clientes_compras := dados.map proj_cliente_compras },
          ?_, rfl, by rw [List.length_map]⟩,
        ⟨{ origem := "redis", amigos_recomendacoes := dados.map proj_amigos_recomendacoes },
          ?_, rfl, by rw [List.length_map]⟩,
        ⟨{ origem := "redis", clientes := dados.filterMap (fun d => dget d "cliente") },
          ?_, rfl, List.length_filterMap_le _ _⟩⟩
    · simp only [redis_clientes_amigos, h]
    · simp only [redis_clientes_compras, h]
    · simp only [redis_amigos_recomendacoes, h]
    · simp only [redis_listar_clientes, h]
  · intro d h
    have hv : dget (proj_cliente_amigos d) "amigos" =
        some ((dget d "amigos").getD (Field.amigos [])) := rfl
    rw [hv, h]
    rfl
  · intro d h
    have hv : dget (proj_cliente_compras d) "compras" =
        some ((dget d "compras").getD (Field.compras [])) := rfl
    rw [hv, h]
    rfl
  · intro d h
    have hv : dget (proj_amigos_recomendacoes d) "indicacoes" =
        some ((dget d "indicacoes").getD (Field.inds [])) := rfl
    rw [hv, h]
    rfl
  · intro d h
    have hv : dget (proj_cliente_amigos d) "cliente" =
        some ((dget d "cliente").getD Field.null) := rfl
    rw [hv, h]
    rfl

/-- C9 witness: the amended view behaviour at the concrete state `stEnc`
and at the empty record. -/
theorem c9_views_shape_witness :
    (∃ r, redis_clientes_amigos stEnc = Except.ok r ∧
      r.clientes_amigos = [[]].map proj_cliente_amigos ∧
      r.clientes_amigos.length = ([[]] : List Dict).length) ∧
    dget (proj_cliente_amigos []) "amigos" = some (Field.amigos []) ∧
    dget (proj_cliente_amigos []) "cliente" = some Field.null :=
  ⟨(c9_views_shape.1 stEnc [[]] rfl).1,
   c9_views_shape.2.1 [] rfl,
   c9_views_shape.2.2.2.2 [] rfl⟩

/-! ### Claim C1 -/

/-- C1 counterexample: with one enumerated customer id whose relational
row is absent at aggregation time, the rebuild loop aborts with the 404
instead of recording the failure, skipping the customer and reporting a
success count — no result with a success count and a failure list is
produced. -/
theorem c1_loop_aborts_on_missing_customer :
    rebuild_loop st0 [1] 0 =
      (Except.error (Err.http 404 "Cliente 1 não encontrado"), st0) := rfl

/-- C1 amended: a per-customer aggregation failure aborts the whole
rebuild — the loop stops at the first customer whose row is absent and
propagates its 404, returning no success count — and even a successful
rebuild reports only `status`, `mensagem` and `total_clientes`: there is
no field surfacing failed customer ids. -/
theorem c1_rebuild_abort_semantics :
    (∀ (st : State) (ids : List Nat) (t : Nat),
      st.redis_up = true →
      (∃ cid ∈ ids, st.src.clientes.find? (fun c => c.id == cid) = none) →
      ∃ cid' st2, cid' ∈ ids ∧
        rebuild_loop st ids t =
          (Except.error
            (Err.http 404 ("Cliente " ++ toString cid' ++ " não encontrado")), st2)) ∧
    (∀ (st : State) (resp : Dict) (st2 : State),
      redis_rebuild st = (Except.ok resp, st2) →
      resp.map Prod.fst = ["status", "mensagem", "total_clientes"]) := by
  constructor
  · intro st ids t
    induction ids generalizing st t with
    | nil =>
      rintro _ ⟨cid, hmem, _⟩
      exact absurd hmem (List.not_mem_nil cid)
    | cons cid rest ih =>
      intro hup hex
      cases hf : st.src.clientes.find? (fun c => c.id == cid) with
      | none =>
        refine ⟨cid, st, List.mem_cons_self cid rest, ?_⟩
        simp only [rebuild_loop, montar_not_found st.src cid hf]
      | some c =>
        obtain ⟨cid0, hmem0, hnone0⟩ := hex
        rcases List.mem_cons.mp hmem0 with rfl | hmem0'
        · rw [hf] at hnone0; cases hnone0
        · obtain ⟨dados, hmo⟩ := montar_ok_of_found (by rw [hf]; rfl)
          have hset : redis_set st (chave_redis_cliente cid)
              (json_dumps (jsonable_encoder dados)) =
              (Except.ok (),
                { st with redis := rset st.redis (chave_redis_cliente cid) (RVal.enc dados) }) := by
            simp [redis_set, hup, json_dumps, jsonable_encoder]
          obtain ⟨cid', st2, hmem', hrec⟩ :=
            ih { st with redis := rset st.redis (chave_redis_cliente cid) (RVal.enc dados) }
              (t + 1) hup ⟨cid0, hmem0', hnone0⟩
          refine ⟨cid', st2, List.mem_cons_of_mem _ hmem', ?_⟩
          simp only [rebuild_loop, hmo, hset, hrec]
  · intro st resp st2 h
    by_cases hup : st.redis_up
    · have hflush : redis_flushdb st = (Except.ok (), { st with redis := [] }) := by
        simp [redis_flushdb, hup]
      rw [redis_rebuild] at h
      simp only [hflush] at h
      split at h
      · exact absurd h (by simp)
      · injection h with h1 h2
        injection h1 with h1
        subst h1
        rfl
    · have hflush : redis_flushdb st = (Except.error Err.cacheUnavailable, st) := by
        simp [redis_flushdb, hup]
      rw [redis_rebuild] at h
      simp only [hflush] at h
      exact absurd h (by simp [http_500_wrap])

/-- C1 witness: the abort at `st0` with enumerated ids `[1]`, and the shape
of the concrete successful rebuild response. -/
theorem c1_rebuild_abort_semantics_witness :
    (∃ cid' st2, cid' ∈ ([1] : List Nat) ∧
      rebuild_loop st0 [1] 0 =
        (Except.error
          (Err.http 404 ("Cliente " ++ toString cid' ++ " não encontrado")), st2)) ∧
    respRebuildAna.map Prod.fst = ["status", "mensagem", "total_clientes"] :=
  ⟨c1_rebuild_abort_semantics.1 st0 [1] 0 rfl ⟨1, List.mem_cons_self 1 [], rfl⟩,
   c1_rebuild_abort_semantics.2 stAna respRebuildAna stAnaRebuilt rfl⟩

/-! ### Claim C10 -/

/-- C10: the record stored in the cache never carries an `origem` key: any
entry the read-through handler adds, and every entry present after a
successful rebuild, is the encoding of an object without `origem`; records
loaded back by the read views therefore carry no `origem` key; the tag is
attached only to the response returned to the caller, which always carries
an `origem` key. -/
theorem c10_origem_not_stored :
    (∀ (st : State) (cid : Nat) (k : String) (v : RVal),
      rget (gerar_recomendacoes st cid).2.redis k = some v →
      rget st.redis k = some v ∨ ∃ o, v = RVal.enc o ∧ dget o "origem" = none) ∧
    (∀ (st : State) (resp : Dict) (st2 : State),
      redis_rebuild st = (Except.ok resp, st2) →
      ∀ k v, rget st2.redis k = some v → ∃ o, v = RVal.enc o ∧ dget o "origem" = none) ∧
    (∀ (st : State) (resp : Dict) (st2 : State),
      redis_rebuild st = (Except.ok resp, st2) →
      ∀ l, _carregar_todos_clientes_redis st2 = Except.ok l →
        ∀ d ∈ l, dget d "origem" = none) ∧
    (∀ (st : State) (cid : Nat) (resp : Dict) (st' : State),
      gerar_recomendacoes st cid = (Except.ok resp, st') →
      (dget resp "origem").isSome = true) := by
  refine ⟨fun st cid => gerar_stored_inv st cid,
    fun st resp st2 h => redis_rebuild_stored_inv st resp st2 h, ?_, ?_⟩
  · intro st resp st2 hreb l hcar d hd
    cases hk : redis_keys_cliente st2 with
    | error e =>
      simp only [_carregar_todos_clientes_redis, hk] at hcar
      cases hcar
    | ok keys =>
      simp only [_carregar_todos_clientes_redis, hk] at hcar
      injection hcar with hcar
      subst hcar
      obtain ⟨k, _, hdec⟩ := List.mem_filterMap.mp hd
      cases ht : truthyVal (rget st2.redis k) with
      | none => simp [decode_entry, ht] at hdec
      | some v =>
        cases v with
        | enc o =>
          have ho : o = d := by simpa [decode_entry, ht, json_loads] using hdec
          subst ho
          obtain ⟨o', heq, hor⟩ :=
            redis_rebuild_stored_inv st resp st2 hreb k (RVal.enc o) (truthyVal_eq_some ht)
          injection heq with heq
          subst heq
          exact hor
        | badJson => simp [decode_entry, ht, json_loads] at hdec
        | emptyStr => simp [decode_entry, ht, json_loads] at hdec
  · intro st cid resp st' h
    by_cases hup : st.redis_up
    · have misscase : truthyVal (rget st.redis (chave_redis_cliente cid)) = none →
          (dget resp "origem").isSome = true := by
        intro hv
        cases hmo : montar_dados_consolidados_cliente st.src cid with
        | error e =>
          rw [gerar_miss_err st cid e hup hv hmo] at h
          exact absurd h (by simp)
        | ok dados =>
          rw [gerar_miss_ok st cid dados hup hv hmo] at h
          injection h with h1 h2
          injection h1 with h1
          subst h1
          rfl
      cases hr : rget st.redis (chave_redis_cliente cid) with
      | none => exact misscase (by rw [hr]; rfl)
      | some v0 =>
        cases v0 with
        | enc o =>
          rw [gerar_hit st cid o hup (by rw [hr]; rfl)] at h
          injection h with h1 h2
          injection h1 with h1
          subst h1
          rw [dget_dictSet, if_pos (beq_self_eq_true _)]
          rfl
        | badJson =>
          rw [gerar_hit_bad st cid hup (by rw [hr]; rfl)] at h
          exact absurd h (by simp)
        | emptyStr => exact misscase (by rw [hr]; rfl)
    · rw [gerar_cache_down st cid (by simpa using hup)] at h
      exact absurd h (by simp)

/-- C10 witness: the stored-entry property read off the concrete rebuilt
state: the value cached for customer 1 is an encoding whose object has no
`origem` key. -/
theorem c10_origem_not_stored_witness :
    ∃ o, RVal.enc dadosAna = RVal.enc o ∧ dget o "origem" = none :=
  c10_origem_not_stored.2.1 stAna respRebuildAna stAnaRebuilt rfl
    "cliente:1" (RVal.enc dadosAna) rfl

end TrabalhoBD2
